import Mathlib

/-!
Verification of the StatBlocker repository's core engines against its
specification: the derived-statistics engine (ability modifiers, saving
throws, stat operations, proficiency-bonus bands, hit-point targets), the
text-templating and directive-resolution engine, the characteristic
serialization contract, and the reference-query engine.

Python integers are modelled as Int (arbitrary precision, like Python),
Python floats on the values exercised here are exact and modelled as Rat,
Python dicts as association lists, raised exceptions as Except/Option.
-/

set_option maxRecDepth 4000

deriving instance DecidableEq for Except

/-- Traverse a list with a partial function, failing if any element fails
(models Python list comprehensions whose element conversions may raise). -/
def mapOption {α β : Type} (g : α → Option β) : List α → Option (List β)
  | [] => some []
  | x :: xs =>
    match g x, mapOption g xs with
    | some y, some ys => some (y :: ys)
    | _, _ => none

/-- Models Python str.capitalize: first character upper-cased, the rest
lower-cased (ASCII suffices for this repository's inputs). -/
def pyCapitalize (s : String) : String :=
  match s.data with
  | [] => ""
  | c :: cs => String.mk (c.toUpper :: cs.map Char.toLower)

/-- Split a character list at every occurrence of a separator, keeping
empty pieces, exactly like Python str.split with an explicit separator. -/
def splitChar (sep : Char) : List Char → List (List Char)
  | [] => [[]]
  | c :: rest =>
    match splitChar sep rest with
    | [] => [[c]]
    | w :: ws => if c == sep then [] :: w :: ws else (c :: w) :: ws

/-- Models Python str.split(" ") on strings. -/
def pySplitSpace (s : String) : List String :=
  (splitChar ' ' s.data).map String.mk

/-- Models Python str.strip(): drop leading and trailing whitespace. -/
def pyStrip (s : String) : String :=
  String.mk (((s.data.dropWhile Char.isWhitespace).reverse.dropWhile
    Char.isWhitespace).reverse)

/-- Models the expression in CombatCharacteristic.__post_init__
(src/statblocker/data/action.py): split on single spaces, capitalize each
piece, re-join with single spaces. -/
def pyTitleWords (s : String) : String :=
  String.intercalate " " ((pySplitSpace s).map pyCapitalize)

/-- Models Python str.rstrip "." : remove every trailing period. -/
def stripTrailingDots (s : String) : String :=
  String.mk (s.data.reverse.dropWhile (fun c => c == '.')).reverse

/-- True when the string's last character is a period. -/
def endsWithDot (s : String) : Bool :=
  s.data.getLast? == some '.'

/-- The six abilities of src/statblocker/data/enums.py (class Ability). -/
inductive Ability where
  | STRENGTH | DEXTERITY | CONSTITUTION | INTELLIGENCE | WISDOM | CHARISMA
deriving DecidableEq

/-- Stable enum-member name, as Python's Ability[...].name. -/
def Ability.pyName : Ability → String
  | .STRENGTH => "STRENGTH"
  | .DEXTERITY => "DEXTERITY"
  | .CONSTITUTION => "CONSTITUTION"
  | .INTELLIGENCE => "INTELLIGENCE"
  | .WISDOM => "WISDOM"
  | .CHARISMA => "CHARISMA"

/-- Models Python's Ability[name] lookup (KeyError becomes none). -/
def Ability.fromName (s : String) : Option Ability :=
  if s = "STRENGTH" then some .STRENGTH
  else if s = "DEXTERITY" then some .DEXTERITY
  else if s = "CONSTITUTION" then some .CONSTITUTION
  else if s = "INTELLIGENCE" then some .INTELLIGENCE
  else if s = "WISDOM" then some .WISDOM
  else if s = "CHARISMA" then some .CHARISMA
  else none

/-- Proficiency tiers of src/statblocker/data/enums.py (class Proficiency). -/
inductive Proficiency where
  | NORMAL | PROFICIENT | EXPERTISE
deriving DecidableEq

/-- Stable enum-member name of a Proficiency tier. -/
def Proficiency.pyName : Proficiency → String
  | .NORMAL => "NORMAL"
  | .PROFICIENT => "PROFICIENT"
  | .EXPERTISE => "EXPERTISE"

/-- Models Python's Proficiency[name] lookup. -/
def Proficiency.fromName (s : String) : Option Proficiency :=
  if s = "NORMAL" then some .NORMAL
  else if s = "PROFICIENT" then some .PROFICIENT
  else if s = "EXPERTISE" then some .EXPERTISE
  else none

/-- The five characteristic kinds of src/statblocker/data/action.py
(class CharacteristicType). -/
inductive CharacteristicType where
  | TRAIT | ACTION | BONUS_ACTION | REACTION | LEGENDARY_ACTION
deriving DecidableEq

/-- Stable enum-member name of a CharacteristicType. -/
def CharacteristicType.pyName : CharacteristicType → String
  | .TRAIT => "TRAIT"
  | .ACTION => "ACTION"
  | .BONUS_ACTION => "BONUS_ACTION"
  | .REACTION => "REACTION"
  | .LEGENDARY_ACTION => "LEGENDARY_ACTION"

/-- Models Python's CharacteristicType[name] lookup. -/
def CharacteristicType.fromName (s : String) : Option CharacteristicType :=
  if s = "TRAIT" then some .TRAIT
  else if s = "ACTION" then some .ACTION
  else if s = "BONUS_ACTION" then some .BONUS_ACTION
  else if s = "REACTION" then some .REACTION
  else if s = "LEGENDARY_ACTION" then some .LEGENDARY_ACTION
  else none

/-- Die kinds of src/statblocker/data/enums.py (class Die); the value is the
number of faces. -/
inductive Die where
  | D4 | D6 | D8 | D10 | D12 | D20
deriving DecidableEq

/-- Face count (the enum value in the source). -/
def Die.faces : Die → ℕ
  | .D4 => 4
  | .D6 => 6
  | .D8 => 8
  | .D10 => 10
  | .D12 => 12
  | .D20 => 20

/-- Die.avg_value from the source: (faces + 1) / 2 as an exact rational
(the Python float is exact here). -/
def Die.avgValue (d : Die) : ℚ := (d.faces + 1) / 2

/-- Die lookup by face count, as Die(value) in Python. -/
def Die.fromFaces (n : ℕ) : Option Die :=
  if n = 4 then some .D4
  else if n = 6 then some .D6
  else if n = 8 then some .D8
  else if n = 10 then some .D10
  else if n = 12 then some .D12
  else if n = 20 then some .D20
  else none

/-- Roll modes of src/statblocker/data/enums.py (class RollType). -/
inductive RollType where
  | NORMAL | AVERAGE | MIN | MAX
deriving DecidableEq

/-- Models Die.roll (src/statblocker/data/enums.py, lines 189-202) for the
deterministic modes; NORMAL draws random numbers and is modelled as none.
AVERAGE is math.floor(avg_value * num_dice), encoded exactly as the natural
floor division (numDice * (faces + 1)) / 2 (the lemma Die.roll_average_eq
certifies the encoding); MIN sums 1 per die; MAX sums the face count per
die. -/
def Die.roll (d : Die) (numDice : ℕ) (rollType : RollType) : Option ℤ :=
  match rollType with
  | .NORMAL => none
  | .MIN => some (numDice * 1)
  | .MAX => some (numDice * d.faces)
  | .AVERAGE => some ((numDice * (d.faces + 1)) / 2 : ℕ)


/-- Association-list lookup modelling Python dict access keyed by Ability. -/
def alookup {β : Type} (l : List (Ability × β)) (k : Ability) : Option β :=
  (l.find? (fun p => p.1 == k)).map (fun p => p.2)

/-- AbilityScores of src/statblocker/data/ability_scores.py: a proficiency
bonus plus dicts from Ability to score and to proficiency tier, modelled as
association lists (absent keys use lookup defaults exactly as the source's
dict.get does). -/
structure AbilityScores where
  proficiency_bonus : ℤ
  scores : List (Ability × ℤ)
  proficiency_levels : List (Ability × Proficiency)
deriving DecidableEq

/-- calculate_ability_modifier from src/statblocker/data/ability_scores.py:
math.floor((score - 10) / 2), i.e. floor division by 2. -/
def calculate_ability_modifier (score : ℤ) : ℤ :=
  Int.fdiv (score - 10) 2

/-- modifier_display_str from src/statblocker/data/ability_scores.py. -/
def modifier_display_str (modifier : ℤ) : String :=
  if 0 ≤ modifier then "+" ++ toString modifier else toString modifier

/-- Score of an ability with the source's default of 10 for absent keys. -/
def AbilityScores.scoreOf (a : AbilityScores) (ab : Ability) : ℤ :=
  (alookup a.scores ab).getD 10

/-- Modifier of an ability, as used throughout the source. -/
def AbilityScores.modifierOf (a : AbilityScores) (ab : Ability) : ℤ :=
  calculate_ability_modifier (a.scoreOf ab)

/-- AbilityScores._calculate_save: modifier plus 0, proficiency_bonus, or
2 * proficiency_bonus according to the ability's tier (default NORMAL). -/
def AbilityScores.calculateSave (a : AbilityScores) (ab : Ability) : ℤ :=
  a.modifierOf ab +
    match (alookup a.proficiency_levels ab).getD .NORMAL with
    | .NORMAL => 0
    | .PROFICIENT => a.proficiency_bonus
    | .EXPERTISE => a.proficiency_bonus * 2

/-- STAT_STR_TO_ABILITY of src/statblocker/data/ability_scores.py; Python's
dict[stat] raises KeyError on unknown keys, modelled as none. -/
def statStrToAbility (s : String) : Option Ability :=
  if s = "STR" then some .STRENGTH
  else if s = "DEX" then some .DEXTERITY
  else if s = "CON" then some .CONSTITUTION
  else if s = "INT" then some .INTELLIGENCE
  else if s = "WIS" then some .WISDOM
  else if s = "CHA" then some .CHARISMA
  else none

/-- The signed-bonus computation inside calculate_stat_operation: Python
runs it only when sign is truthy (non-empty) and bonus is not None; sign
"+" yields abs(bonus), "-" yields -abs(bonus), anything else raises
NotImplementedError. -/
def calcSignedBonus (sign : Option String) (bonus : Option ℤ) : Except String ℤ :=
  match sign, bonus with
  | some sg, some b =>
    if sg = "" then .ok 0
    else if sg = "+" then .ok (b.natAbs : ℤ)
    else if sg = "-" then .ok (-(b.natAbs : ℤ))
    else .error "NotImplementedError"
  | _, _ => .ok 0

/-- AbilityScores.calculate_stat_operation (src/statblocker/data/
ability_scores.py, lines 207-234). The stat string is looked up in
STAT_STR_TO_ABILITY (KeyError modelled as .error); the operation match has
arms ATK, SAVE, SPELLSAVE, and a silent fall-through that returns Python
None, modelled as .ok none. -/
def calculate_stat_operation (a : AbilityScores) (stat operation : String)
    (sign : Option String) (bonus : Option ℤ) : Except String (Option ℤ) :=
  match statStrToAbility stat with
  | none => .error ("KeyError: " ++ stat)
  | some ability =>
    match calcSignedBonus sign bonus with
    | .error e => .error e
    | .ok calced_bonus =>
      if operation = "ATK" then
        .ok (some (a.proficiency_bonus + a.modifierOf ability + calced_bonus))
      else if operation = "SAVE" then
        .ok (some (a.calculateSave ability + calced_bonus))
      else if operation = "SPELLSAVE" then
        .ok (some (8 + a.proficiency_bonus + a.modifierOf ability))
      else
        .ok none

/-- ChallengeRating.proficiency_bonus (src/statblocker/data/
challenge_rating.py, lines 13-31): the if/elif chain over the rating;
falling off the end raises NotImplementedError, modelled as none. -/
def proficiencyBonusOfRating (r : ℚ) : Option ℤ :=
  if 0 ≤ r ∧ r ≤ 4 then some 2
  else if 5 ≤ r ∧ r ≤ 8 then some 3
  else if 9 ≤ r ∧ r ≤ 12 then some 4
  else if 13 ≤ r ∧ r ≤ 16 then some 5
  else if 17 ≤ r ∧ r ≤ 20 then some 6
  else if 21 ≤ r ∧ r ≤ 24 then some 7
  else if 25 ≤ r ∧ r ≤ 28 then some 8
  else if 29 ≤ r ∧ r ≤ 30 then some 9
  else none

/-- The proficiency-bonus band table exactly as the specification
enumerates it: inclusive (low, high, bonus) triples. -/
def specBandTable : List (ℚ × ℚ × ℤ) :=
  [(0, 4, 2), (5, 8, 3), (9, 12, 4), (13, 16, 5),
   (17, 20, 6), (21, 24, 7), (25, 28, 8), (29, 30, 9)]

/-- Least natural n with m ≤ n * n, computed by ascending search (n = m + 1
always satisfies the bound, so the search succeeds within the range). -/
def ceilSqrtNat (m : ℕ) : ℕ :=
  (((List.range (m + 2)).find? (fun n => decide (m ≤ n * n))).getD 0)

/-- The hit-point target computed inside StatBlock.hit_points_str
(src/statblocker/data/stat_block.py, lines 131-145):
rating < 1 gives math.ceil(30 * math.sqrt(rating)), 1 ≤ rating ≤ 19 gives
math.ceil(15 * (rating + 1)), otherwise math.ceil(45 * (rating - 13)).
For rating ≥ 0, ceil(30 * sqrt(r)) is the least natural n with
n * n ≥ 900 * r, encoded exactly via ceilSqrtNat of ceil(900 * r); the
Python floats are exact on the ratings used (negative ratings would make
math.sqrt raise and do not occur). -/
def hitPointTarget (r : ℚ) : ℤ :=
  if r < 1 then (ceilSqrtNat (⌈900 * r⌉).toNat : ℤ)
  else if 1 ≤ r ∧ r ≤ 19 then ⌈15 * (r + 1)⌉
  else ⌈45 * (r - 13)⌉

/-- Serialized form produced by AbilityScores.__getstate__
(src/statblocker/data/ability_scores.py, lines 35-43): enum keys and
enum values are replaced by their stable names. -/
structure ASState where
  proficiency_bonus : ℤ
  scores : List (String × ℤ)
  proficiency_levels : List (String × String)
deriving DecidableEq

/-- One entry of the serialized scores dict: the Ability key becomes its
stable name (the k.name of the source comprehension). -/
def scoreEntryState (p : Ability × ℤ) : String × ℤ :=
  (p.1.pyName, p.2)

/-- Deserializing one scores entry: Ability[k], KeyError as none. -/
def scoreEntryParse (q : String × ℤ) : Option (Ability × ℤ) :=
  (Ability.fromName q.1).map (fun a => (a, q.2))

/-- One entry of a serialized tier dict: key and value both by name. -/
def tierEntryState (p : Ability × Proficiency) : String × String :=
  (p.1.pyName, p.2.pyName)

/-- Deserializing one tier entry: Ability[k] and Proficiency[v]. -/
def tierEntryParse (q : String × String) : Option (Ability × Proficiency) :=
  (Ability.fromName q.1).bind (fun a => (Proficiency.fromName q.2).map (fun pr => (a, pr)))

/-- AbilityScores.__getstate__: emit enum keys/values by name. -/
def asGetstate (a : AbilityScores) : ASState where
  proficiency_bonus := a.proficiency_bonus
  scores := a.scores.map scoreEntryState
  proficiency_levels := a.proficiency_levels.map tierEntryState

/-- AbilityScores.__setstate__ (lines 45-51): convert names back to enum
members; an unknown name raises KeyError, modelled as none. -/
def asSetstate (st : ASState) : Option AbilityScores :=
  match mapOption scoreEntryParse st.scores,
      mapOption tierEntryParse st.proficiency_levels with
  | some sc, some lv => some ⟨st.proficiency_bonus, sc, lv⟩
  | _, _ => none

/-- CombatCharacteristic of src/statblocker/data/action.py: the snapshot a
characteristic keeps of its owning creature, plus title, description, kind
and the optional legendary-resistance counts. -/
structure CombatCharacteristic where
  monster_name : String
  ability_scores : AbilityScores
  proficiency_bonus : ℤ
  saving_throws : List (Ability × Proficiency)
  has_lair : Bool
  title : String
  description : String
  ctype : CharacteristicType
  num_legendary_resistances : Option ℤ
  legendary_resistances_lair_bonus : Option ℤ
deriving DecidableEq

/-- Construction of a CombatCharacteristic: dataclass __init__ followed by
__post_init__ (src/statblocker/data/action.py, lines 32-35), which rewrites
monster_name by capitalizing each space-separated word. -/
def mkCombatCharacteristic (monster_name : String) (ability_scores : AbilityScores)
    (proficiency_bonus : ℤ) (saving_throws : List (Ability × Proficiency))
    (has_lair : Bool) (title description : String) (ctype : CharacteristicType)
    (num_legendary_resistances legendary_resistances_lair_bonus : Option ℤ) :
    CombatCharacteristic where
  monster_name := pyTitleWords monster_name
  ability_scores := ability_scores
  proficiency_bonus := proficiency_bonus
  saving_throws := saving_throws
  has_lair := has_lair
  title := title
  description := description
  ctype := ctype
  num_legendary_resistances := num_legendary_resistances
  legendary_resistances_lair_bonus := legendary_resistances_lair_bonus

/-- Serialized form produced by CombatCharacteristic.__getstate__
(src/statblocker/data/action.py, lines 37-48). The nested AbilityScores is
stored as an object and serialized by its own __getstate__, so its
serialized form appears here. Note: the state has no entry for
num_legendary_resistances or legendary_resistances_lair_bonus. -/
structure CCState where
  monster_name : String
  ability_scores : ASState
  proficiency_bonus : ℤ
  saving_throws : List (String × String)
  has_lair : Bool
  title : String
  description : String
  ctype : String
deriving DecidableEq

/-- CombatCharacteristic.__getstate__: enum keys/values by stable name;
the legendary-resistance count fields are omitted. -/
def ccGetstate (c : CombatCharacteristic) : CCState where
  monster_name := c.monster_name
  ability_scores := asGetstate c.ability_scores
  proficiency_bonus := c.proficiency_bonus
  saving_throws := c.saving_throws.map tierEntryState
  has_lair := c.has_lair
  title := c.title
  description := c.description
  ctype := c.ctype.pyName

/-- CombatCharacteristic.__setstate__ (lines 50-61): restores exactly the
fields present in the state; num_legendary_resistances and
legendary_resistances_lair_bonus are never assigned, so the deserialized
object falls back to the dataclass defaults (None). -/
def ccSetstate (st : CCState) : Option CombatCharacteristic :=
  match asSetstate st.ability_scores, mapOption tierEntryParse st.saving_throws,
      CharacteristicType.fromName st.ctype with
  | some ascores, some sts, some ct =>
    some ⟨st.monster_name, ascores, st.proficiency_bonus, sts, st.has_lair,
      st.title, st.description, ct, none, none⟩
  | _, _, _ => none

/-- Ability scores of the specification's example creature: STR 18 with
proficiency bonus +2, other abilities left to the lookup defaults. -/
def testOgreScores : AbilityScores where
  proficiency_bonus := 2
  scores := [(.STRENGTH, 18)]
  proficiency_levels := []

/-- A fully populated characteristic (legendary-resistance counts set),
used to exercise the serialization round-trip. -/
def egCharacteristic : CombatCharacteristic where
  monster_name := "Test Ogre"
  ability_scores := testOgreScores
  proficiency_bonus := 2
  saving_throws := [(.STRENGTH, .PROFICIENT)]
  has_lair := true
  title := "Legendary Resistance"
  description := "If the Test Ogre fails a saving throw, it can choose to succeed instead"
  ctype := .TRAIT
  num_legendary_resistances := some 3
  legendary_resistances_lair_bonus := some 1

/-- The claim's reading of the signed bonus of a stat operation: sign "+"
forces a non-negative magnitude, "-" a non-positive one, and an absent
sign or bonus contributes 0. -/
def signedBonusSpec (sign : Option String) (bonus : Option ℤ) : ℤ :=
  match sign, bonus with
  | some sg, some b => if sg = "+" then |b| else if sg = "-" then -|b| else 0
  | _, _ => 0


/-- Context handed to the text resolver, mirroring the arguments that
CombatCharacteristic passes to resolve_all_macros in
src/statblocker/data/action.py (the module statblocker/data/macros.py
itself is not present under src/, so the resolver below is modelled from
the specification). -/
structure ResolveCtx where
  monster_name : String
  ability_scores : AbilityScores
  proficiency_bonus : ℤ
  num_legendary_resistances : Option ℤ
  legendary_resistances_lair_bonus : Option ℤ

/-- Parse a non-empty all-digit character list as a natural number. -/
def parseNatChars (l : List Char) : Option ℕ :=
  if l = [] then none
  else if l.all (fun c => c.isDigit) then
    some (l.foldl (fun acc c => acc * 10 + (c.toNat - 48)) 0)
  else none

/-- Modelled from the spec: the NdM dice pattern of a directive token
(e.g. 3D6), case-insensitive on the D, with M restricted to the die kinds
the source defines. -/
def parseDice (t : String) : Option (ℕ × Die) :=
  match splitChar 'D' (t.data.map Char.toUpper) with
  | [ns, ms] =>
    match parseNatChars ns, parseNatChars ms with
    | some n, some m => (Die.fromFaces m).map (fun d => (n, d))
    | _, _ => none
  | _ => none

/-- Modelled from the spec: a trailing sign token of a directive. -/
def parseSign (s : String) : Option ℤ :=
  if s = "+" then some 1 else if s = "-" then some (-1) else none

/-- Modelled from the spec: the trailing signed integer modifier applied
after a base computation; absent pieces contribute 0. -/
def signedOffset (sign : Option ℤ) (bonus : Option ℕ) : ℤ :=
  match sign, bonus with
  | some sg, some b => sg * b
  | _, _ => 0

/-- Last space-separated word of a name (the creature's short name). -/
def lastWordOf (s : String) : String :=
  ((pySplitSpace s).getLast?).getD ""

/-- Modelled from the spec: rendering of an ability-operation directive.
The numeric value comes from the source's calculate_stat_operation; attack
bonuses render signed (+6), save DCs render as bare numbers. -/
def renderStatOp (ctx : ResolveCtx) (code op : String) (sign : Option String)
    (bonus : Option ℤ) : Option String :=
  match calculate_stat_operation ctx.ability_scores code op sign bonus with
  | .ok (some v) => some (if op = "ATK" then modifier_display_str v else toString v)
  | _ => none

/-- Modelled from the spec: a two-token ability directive - a 3-letter
ability code followed by ATK, SAVE, SPELLSAVE, or a die expression whose
average roll (via the source's Die.roll) gets the ability modifier added
once, not per die. -/
def abilityDirective (ctx : ResolveCtx) (code t : String) (sign : Option String)
    (bonus : Option ℤ) : Option String :=
  match statStrToAbility code with
  | none => none
  | some ab =>
    if t = "ATK" ∨ t = "SAVE" ∨ t = "SPELLSAVE" then
      renderStatOp ctx code t sign bonus
    else
      match parseDice t with
      | some (n, d) =>
        match Die.roll d n .AVERAGE with
        | some v =>
          some (toString (v + ctx.ability_scores.modifierOf ab +
            signedOffset (sign.bind parseSign) (bonus.map Int.toNat)))
        | none => none
      | none => none

/-- Modelled from the spec: single-token directives holding a value - the
legendary-resistance counts LR and LRL, or a bare dice expression resolved
in average mode. -/
def singleTokenValue (ctx : ResolveCtx) (t : String) : Option ℤ :=
  if t = "LR" then ctx.num_legendary_resistances
  else if t = "LRL" then
    match ctx.num_legendary_resistances, ctx.legendary_resistances_lair_bonus with
    | some n, some b => some (n + b)
    | _, _ => none
  else (parseDice t).bind (fun nd => Die.roll nd.2 nd.1 .AVERAGE)

/-- Modelled from the spec: resolve the content of one bracketed directive.
Token families in the spec's precedence order: literal substitutions (MON,
SMON, bare dice), ability-operation tokens, legendary-resistance counts;
each computing form may carry a trailing sign and number. Unrecognized
content is a fatal parse error (none). -/
def resolveDirective (ctx : ResolveCtx) (dir : String) : Option String :=
  match pySplitSpace dir with
  | ["MON"] => some ctx.monster_name
  | ["SMON"] => some (lastWordOf ctx.monster_name)
  | [t] => (singleTokenValue ctx t).map toString
  | [a, t] => abilityDirective ctx a t none none
  | [t, sg, num] =>
    match parseSign sg, parseNatChars num.data with
    | some sgn, some n =>
      (singleTokenValue ctx t).map (fun v => toString (v + sgn * (n : ℤ)))
    | _, _ => none
  | [a, t, sg, num] =>
    match parseSign sg, parseNatChars num.data with
    | some _, some n => abilityDirective ctx a t (some sg) (some (n : ℤ))
    | _, _ => none
  | _ => none

/-- Modelled from the spec: single left-to-right scan replacing every
bracketed directive; the second argument holds the pending directive
characters (reversed) while inside a bracket. A failed directive, or an
unterminated bracket, fails the whole resolution. -/
def scanAux (ctx : ResolveCtx) : List Char → Option (List Char) → Option (List Char)
  | [], none => some []
  | [], some _ => none
  | c :: rest, none =>
    if c == '[' then scanAux ctx rest (some [])
    else (scanAux ctx rest none).map (fun out => c :: out)
  | c :: rest, some acc =>
    if c == ']' then
      match resolveDirective ctx (String.mk acc.reverse) with
      | none => none
      | some rep => (scanAux ctx rest none).map (fun out => rep.data ++ out)
    else scanAux ctx rest (some (c :: acc))

/-- Modelled from the spec: the full resolver over a string (the source's
resolve_all_macros of statblocker/data/macros.py, absent from src/). -/
def resolveAll (ctx : ResolveCtx) (s : String) : Option String :=
  (scanAux ctx s.data none).map String.mk

/-- Modelled from the spec: the fixed, case-sensitive vocabulary of rules
keywords (damage types and conditions, by display name; longer words
listed before their prefixes). -/
def keywordVocabulary : List String :=
  ["Bludgeoning", "Slashing", "Piercing", "Acid", "Cold", "Fire", "Force",
   "Lightning", "Necrotic", "Poisoned", "Poison", "Psychic", "Radiant",
   "Thunder", "Blinded", "Charmed", "Deafened", "Exhaustion", "Frightened",
   "Grappled", "Incapacitated", "Invisible", "Paralyzed", "Petrified",
   "Prone", "Restrained", "Stunned", "Unconscious"]

/-- Does the first list occur as an initial segment of the second? -/
def startsWithChars : List Char → List Char → Bool
  | [], _ => true
  | _ :: _, [] => false
  | p :: ps, c :: cs => p == c && startsWithChars ps cs

/-- First vocabulary word starting at this position, if any. -/
def findKeyword (l : List Char) : Option String :=
  keywordVocabulary.find? (fun w => startsWithChars w.data l)

/-- Modelled from the spec: one left-to-right non-overlapping pass wrapping
each vocabulary occurrence in emphasis markup; the fuel argument (the
input length at the top call) only certifies termination. -/
def fkpAux : ℕ → List Char → List Char
  | 0, l => l
  | _ + 1, [] => []
  | fuel + 1, c :: rest =>
    match findKeyword (c :: rest) with
    | some w => ('*' :: w.data ++ ['*']) ++ fkpAux fuel ((c :: rest).drop w.length)
    | none => c :: fkpAux fuel rest

/-- Modelled from the spec: format_keyword_phrases of
statblocker/data/macros.py (absent from src/). -/
def format_keyword_phrases (s : String) : String :=
  String.mk (fkpAux s.data.length s.data)

/-- The resolution context a characteristic builds for itself in
resolved_title / resolved_description (src/statblocker/data/action.py,
lines 63-86). -/
def ctxOf (c : CombatCharacteristic) : ResolveCtx where
  monster_name := c.monster_name
  ability_scores := c.ability_scores
  proficiency_bonus := c.proficiency_bonus
  num_legendary_resistances := c.num_legendary_resistances
  legendary_resistances_lair_bonus := c.legendary_resistances_lair_bonus

/-- CombatCharacteristic.resolved_title: strip whitespace, strip every
trailing period, resolve directives. -/
def resolvedTitle (c : CombatCharacteristic) : Option String :=
  resolveAll (ctxOf c) (stripTrailingDots (pyStrip c.title))

/-- CombatCharacteristic.resolved_description: strip whitespace and
trailing periods, apply keyword emphasis, then resolve directives. -/
def resolvedDescription (c : CombatCharacteristic) : Option String :=
  resolveAll (ctxOf c) (format_keyword_phrases (stripTrailingDots (pyStrip c.description)))

/-- Append a period unless the string already ends with one (the inline
conditional of hb_v3_markdown in src/statblocker/data/action.py line 92). -/
def withTrailingDot (s : String) : String :=
  s ++ (if endsWithDot s then "" else ".")

/-- CombatCharacteristic.hb_v3_markdown (src/statblocker/data/action.py,
lines 88-92): join the resolved title and description as
***Title.*** Description. -/
def hbV3Markdown (c : CombatCharacteristic) : Option String :=
  match resolvedTitle c, resolvedDescription c with
  | some rt, some rd =>
    some ("***" ++ withTrailingDot rt ++ "*** " ++ withTrailingDot rd)
  | _, _ => none

/-- The claim's reading of the stripping step: a single trailing period
removed (not all of them). -/
def stripOneTrailingDot (s : String) : String :=
  if endsWithDot s then String.mk s.data.dropLast else s

/-- The claim's predicted presentation pipeline, word for word: title and
description each independently have a single trailing period stripped,
keyword emphasis applies to the description only, then resolution, then
exactly one trailing period is re-appended, joined as
***Title.*** Description. -/
def hbV3MarkdownClaim (c : CombatCharacteristic) : Option String :=
  match resolveAll (ctxOf c) (stripOneTrailingDot (pyStrip c.title)),
      resolveAll (ctxOf c)
        (format_keyword_phrases (stripOneTrailingDot (pyStrip c.description))) with
  | some rt, some rd => some ("***" ++ rt ++ ".*** " ++ rd ++ ".")
  | _, _ => none

/-- The resolution context of the specification's macro example: creature
"Test Ogre", STR 18, proficiency bonus +2. -/
def testOgreCtx : ResolveCtx where
  monster_name := "Test Ogre"
  ability_scores := testOgreScores
  proficiency_bonus := 2
  num_legendary_resistances := none
  legendary_resistances_lair_bonus := none

/-- A characteristic whose title carries two trailing periods, separating
the strip-all-periods behavior of the code from the strip-one reading. -/
def dottedCharacteristic : CombatCharacteristic where
  monster_name := "Test Ogre"
  ability_scores := testOgreScores
  proficiency_bonus := 2
  saving_throws := []
  has_lair := false
  title := "Bite.."
  description := "Claws the target"
  ctype := .ACTION
  num_legendary_resistances := none
  legendary_resistances_lair_bonus := none



/-- Size enum of src/statblocker/data/enums.py. -/
inductive Size where
  | TINY | SMALL | MEDIUM | LARGE | HUGE | GARGANTUAN
deriving DecidableEq

/-- CreatureType enum of src/statblocker/data/enums.py. -/
inductive CreatureType where
  | ABERRATION | BEAST | CELESTIAL | CONSTRUCT | DRAGON | ELEMENTAL | FEY
  | FIEND | GIANT | HUMANOID | MONSTROSITY | OOZE | PLANT | UNDEAD
deriving DecidableEq

/-- The MonsterDataType union of src/statblocker/data/db/
monster_manual_2024_database.py: str | float | int | bool | Size |
CreatureType, with Python's int and float numerics unified as Rat. -/
inductive MDTValue where
  | str (s : String)
  | num (q : ℚ)
  | bool (b : Bool)
  | size (s : Size)
  | ctype (c : CreatureType)
deriving DecidableEq

/-- One row of the reference table after _read_monster_csv typing: scalar
columns plus the two multi-valued columns Size and Creature Type. -/
structure MMRow where
  monsterName : String
  cr : ℚ
  ac : ℤ
  minHP : ℤ
  maxHP : ℤ
  avgHP : ℤ
  numberOfAttacks : ℤ
  size : List Size
  creatureType : List CreatureType
  strScore : ℤ
  dexScore : ℤ
  conScore : ℤ
  intScore : ℤ
  wisScore : ℤ
  chaScore : ℤ
  legendary : Bool
  swarm : Bool
deriving DecidableEq

/-- The fixed column set of the reference table (self._column_names). -/
def validColumns : List String :=
  ["Monster Name", "CR", "AC", "Min HP", "Max HP", "Avg HP",
   "Number of Attacks", "Size", "Creature Type", "STR", "DEX", "CON",
   "INT", "WIS", "CHA", "Legendary", "Swarm"]

/-- The per-row filter predicate of MonsterManual2024Database.query
(lines 200-209): Size and Creature Type use containment (value in cell),
every other column uses equality; a filter value of the wrong type matches
nothing, as the pandas comparison would. -/
def rowMatches (col : String) (v : MDTValue) (r : MMRow) : Bool :=
  match col with
  | "Size" => match v with | .size s => decide (s ∈ r.size) | _ => false
  | "Creature Type" => match v with | .ctype ct => decide (ct ∈ r.creatureType) | _ => false
  | "Monster Name" => match v with | .str x => r.monsterName == x | _ => false
  | "CR" => match v with | .num q => r.cr == q | _ => false
  | "AC" => match v with | .num q => ((r.ac : ℚ) == q) | _ => false
  | "Min HP" => match v with | .num q => ((r.minHP : ℚ) == q) | _ => false
  | "Max HP" => match v with | .num q => ((r.maxHP : ℚ) == q) | _ => false
  | "Avg HP" => match v with | .num q => ((r.avgHP : ℚ) == q) | _ => false
  | "Number of Attacks" => match v with | .num q => ((r.numberOfAttacks : ℚ) == q) | _ => false
  | "STR" => match v with | .num q => ((r.strScore : ℚ) == q) | _ => false
  | "DEX" => match v with | .num q => ((r.dexScore : ℚ) == q) | _ => false
  | "CON" => match v with | .num q => ((r.conScore : ℚ) == q) | _ => false
  | "INT" => match v with | .num q => ((r.intScore : ℚ) == q) | _ => false
  | "WIS" => match v with | .num q => ((r.wisScore : ℚ) == q) | _ => false
  | "CHA" => match v with | .num q => ((r.chaScore : ℚ) == q) | _ => false
  | "Legendary" => match v with | .bool b => r.legendary == b | _ => false
  | "Swarm" => match v with | .bool b => r.swarm == b | _ => false
  | _ => false

/-- The filter loop of query: apply each filter in turn; an unknown column
name raises (KeyError, re-raised as ValueError by the catch-all). -/
def applyFilters (filters : List (String × MDTValue)) (rows : List MMRow) :
    Except String (List MMRow) :=
  match filters with
  | [] => .ok rows
  | (col, v) :: rest =>
    if col ∈ validColumns then
      applyFilters rest (rows.filter (rowMatches col v))
    else .error ("KeyError: " ++ col)

/-- Numeric view of an aggregate column (bool columns aggregate as 0/1 as
pandas does); aggregating a non-numeric column is an error. -/
def getNumericExtractor (col : String) : Except String (MMRow → ℚ) :=
  match col with
  | "CR" => .ok (fun r => r.cr)
  | "AC" => .ok (fun r => (r.ac : ℚ))
  | "Min HP" => .ok (fun r => (r.minHP : ℚ))
  | "Max HP" => .ok (fun r => (r.maxHP : ℚ))
  | "Avg HP" => .ok (fun r => (r.avgHP : ℚ))
  | "Number of Attacks" => .ok (fun r => (r.numberOfAttacks : ℚ))
  | "STR" => .ok (fun r => (r.strScore : ℚ))
  | "DEX" => .ok (fun r => (r.dexScore : ℚ))
  | "CON" => .ok (fun r => (r.conScore : ℚ))
  | "INT" => .ok (fun r => (r.intScore : ℚ))
  | "WIS" => .ok (fun r => (r.wisScore : ℚ))
  | "CHA" => .ok (fun r => (r.chaScore : ℚ))
  | "Legendary" => .ok (fun r => if r.legendary then 1 else 0)
  | "Swarm" => .ok (fun r => if r.swarm then 1 else 0)
  | "Monster Name" => .error "TypeError: non-numeric column Monster Name"
  | "Size" => .error "TypeError: non-numeric column Size"
  | "Creature Type" => .error "TypeError: non-numeric column Creature Type"
  | other => .error ("KeyError: " ++ other)

/-- Aggregation operations of the OperationType enum in the source. -/
inductive OperationType where
  | MEAN | MEDIAN | MODE | MIN | MAX
deriving DecidableEq

/-- pandas Series.mean: NaN (none) on an empty selection. -/
def meanAgg (vals : List ℚ) : Option ℚ :=
  if vals.length = 0 then none else some (vals.sum / vals.length)

/-- pandas Series.median: the middle element, or the mean of the two middle
elements, of the sorted values; NaN (none) on an empty selection. -/
def medianAgg (vals : List ℚ) : Option ℚ :=
  if vals.length = 0 then none
  else
    some (((vals.insertionSort (· ≤ ·)).getD ((vals.length - 1) / 2) 0 +
      (vals.insertionSort (· ≤ ·)).getD (vals.length / 2) 0) / 2)

/-- pandas Series.min: NaN (none) on an empty selection. -/
def minAgg : List ℚ → Option ℚ
  | [] => none
  | x :: xs => some (xs.foldl min x)

/-- pandas Series.max: NaN (none) on an empty selection. -/
def maxAgg : List ℚ → Option ℚ
  | [] => none
  | x :: xs => some (xs.foldl max x)

/-- pandas Series.mode: the ascending list of most-frequent values (a
Series, empty on an empty selection - the source returns it as-is). -/
def modeAgg (vals : List ℚ) : List ℚ :=
  (vals.dedup.filter
    (fun v => vals.count v == (vals.dedup.map (fun w => vals.count w)).foldl max 0)
    ).insertionSort (· ≤ ·)

/-- Result of an aggregate: a scalar (possibly NaN, as none) for
mean/median/min/max, or the mode Series. -/
inductive AggValue where
  | scalar (v : Option ℚ)
  | series (vs : List ℚ)
deriving DecidableEq

/-- The operation match of query (lines 211-223). -/
def applyOperation (op : OperationType) (vals : List ℚ) : AggValue :=
  match op with
  | .MEAN => .scalar (meanAgg vals)
  | .MEDIAN => .scalar (medianAgg vals)
  | .MODE => .series (modeAgg vals)
  | .MIN => .scalar (minAgg vals)
  | .MAX => .scalar (maxAgg vals)

/-- MonsterManual2024Database.query (src/statblocker/data/db/
monster_manual_2024_database.py, lines 186-225): filter row by row, take
the aggregate column, return (aggregate, sample size); exceptions inside
are re-raised as ValueError with the underlying message. -/
def query (rows : List MMRow) (filters : List (String × MDTValue))
    (aggCol : String) (op : OperationType) : Except String (AggValue × ℕ) :=
  match applyFilters filters rows with
  | .error e => .error ("ValueError: Error querying database: " ++ e)
  | .ok filtered =>
    match getNumericExtractor aggCol with
    | .error e => .error ("ValueError: Error querying database: " ++ e)
    | .ok f => .ok (applyOperation op (filtered.map f), (filtered.map f).length)

/-- The specification's exploding semantics for the Size column: duplicate
each row once per size it holds, the copy tagged with just that size. -/
def explodeSize (rows : List MMRow) : List MMRow :=
  rows.flatMap (fun r => r.size.map (fun s => { r with size := [s] }))

/-- Fixture rows echoing the specification's query example: three rows of
challenge rating 1 tagged Large (one of them Large and Huge), plus an
unrelated rating-2 Medium swarm row. -/
def fixtureRow1 : MMRow :=
  ⟨"Ogre A", 1, 13, 20, 40, 30, 2, [.LARGE], [.GIANT], 18, 8, 16, 5, 7, 7, false, false⟩

/-- Second fixture row: tagged both Large and Huge. -/
def fixtureRow2 : MMRow :=
  ⟨"Ogre B", 1, 12, 25, 45, 40, 2, [.LARGE, .HUGE], [.GIANT], 19, 8, 16, 5, 7, 7, false, false⟩

/-- Third fixture row. -/
def fixtureRow3 : MMRow :=
  ⟨"Ogre C", 1, 11, 30, 70, 50, 2, [.LARGE], [.GIANT], 20, 8, 16, 5, 7, 7, false, false⟩

/-- Fourth fixture row: different rating and size. -/
def fixtureRow4 : MMRow :=
  ⟨"Wolf", 2, 13, 10, 20, 15, 1, [.MEDIUM], [.BEAST], 12, 15, 12, 3, 12, 6, false, true⟩

/-- The fixture table. -/
def fixtureRows : List MMRow := [fixtureRow1, fixtureRow2, fixtureRow3, fixtureRow4]


/-- The AVERAGE arm of Die.roll equals the floor of avg_value * num_dice,
exactly as the source computes it over floats. -/
theorem Die.roll_average_eq (d : Die) (n : ℕ) :
    d.roll n .AVERAGE = some ⌊d.avgValue * n⌋ := by
  have h : d.avgValue * n = ((n * (d.faces + 1) : ℕ) : ℚ) / ((2 : ℕ) : ℚ) := by
    rw [Die.avgValue]
    push_cast
    ring
  rw [Die.roll, h, Rat.floor_natCast_div_natCast]
  rfl

/-- Mapping a list through an injection and back through its partial
inverse recovers the list. -/
theorem mapOption_map_inverse {α β : Type} (l : List α) (f : α → β) (g : β → Option α)
    (h : ∀ a, g (f a) = some a) : mapOption g (l.map f) = some l := by
  induction l with
  | nil => rfl
  | cons x xs ih => simp [mapOption, h, ih]

/-- C5: for each of the six ability codes and for every sign drawn from
{absent, "+", "-"} with any optional bonus, calculate_stat_operation
returns ATK = proficiency bonus + ability modifier + signed bonus,
SAVE = saving-throw bonus + signed bonus, and SPELLSAVE = 8 + proficiency
bonus + ability modifier with no bonus term; the signed bonus is |bonus|
under "+", -|bonus| under "-", and 0 when sign or bonus is absent. -/
theorem c5_stat_operation_formulas (a : AbilityScores) (stat : String) (ab : Ability)
    (hstat : statStrToAbility stat = some ab)
    (sign : Option String) (bonus : Option ℤ)
    (hsign : sign = none ∨ sign = some "+" ∨ sign = some "-") :
    calculate_stat_operation a stat "ATK" sign bonus =
      .ok (some (a.proficiency_bonus + a.modifierOf ab + signedBonusSpec sign bonus)) ∧
    calculate_stat_operation a stat "SAVE" sign bonus =
      .ok (some (a.calculateSave ab + signedBonusSpec sign bonus)) ∧
    calculate_stat_operation a stat "SPELLSAVE" sign bonus =
      .ok (some (8 + a.proficiency_bonus + a.modifierOf ab)) ∧
    0 ≤ signedBonusSpec (some "+") bonus ∧
    signedBonusSpec (some "-") bonus ≤ 0 ∧
    signedBonusSpec none bonus = 0 ∧
    signedBonusSpec sign none = 0 := by
  have habs : ∀ b : ℤ, |b| = (b.natAbs : ℤ) := fun b => Int.abs_eq_natAbs b
  rcases hsign with h | h | h <;> subst h <;>
    cases bonus <;>
      simp only [calculate_stat_operation, hstat, calcSignedBonus, signedBonusSpec,
        habs, String.reduceEq, reduceIte, reduceCtorEq] <;>
      refine ⟨?_, ?_, ?_, ?_, ?_, ?_, ?_⟩ <;>
      first
        | trivial
        | exact Int.natCast_nonneg _
        | exact neg_nonpos_of_nonneg (Int.natCast_nonneg _)

/-- Witness for C5 at a concrete input: ability code CHA, sign "-",
bonus 3 on the example creature. -/
theorem c5_stat_operation_formulas_witness :
    statStrToAbility "CHA" = some .CHARISMA ∧
    ((some "-" : Option String) = none ∨ (some "-" : Option String) = some "+" ∨
      (some "-" : Option String) = some "-") ∧
    (calculate_stat_operation testOgreScores "CHA" "ATK" (some "-") (some 3) =
      .ok (some (testOgreScores.proficiency_bonus +
        testOgreScores.modifierOf .CHARISMA + signedBonusSpec (some "-") (some 3))) ∧
    calculate_stat_operation testOgreScores "CHA" "SAVE" (some "-") (some 3) =
      .ok (some (testOgreScores.calculateSave .CHARISMA +
        signedBonusSpec (some "-") (some 3))) ∧
    calculate_stat_operation testOgreScores "CHA" "SPELLSAVE" (some "-") (some 3) =
      .ok (some (8 + testOgreScores.proficiency_bonus +
        testOgreScores.modifierOf .CHARISMA)) ∧
    0 ≤ signedBonusSpec (some "+") (some 3) ∧
    signedBonusSpec (some "-") (some 3) ≤ 0 ∧
    signedBonusSpec none (some 3) = 0 ∧
    signedBonusSpec (some "-") none = 0) ∧
    calculate_stat_operation testOgreScores "CHA" "SAVE" (some "-") (some 3) =
      .ok (some (-3)) :=
  ⟨by decide, Or.inr (Or.inr rfl),
    c5_stat_operation_formulas testOgreScores "CHA" .CHARISMA (by decide)
      (some "-") (some 3) (Or.inr (Or.inr rfl)), by decide⟩

/-- C6: the source evaluates an unknown operation code to Python None (the
match falls through case _: pass), modelled as .ok none: no exception is
raised and no number is produced, contradicting the spec's fatal-error
contract for unknown stat-operation codes. -/
theorem c6_unknown_operation_returns_none :
    calculate_stat_operation testOgreScores "STR" "FOO" none none = .ok none := by
  decide

/-- Ability name round-trip: the stable name recovers the member. -/
theorem ability_fromName_pyName (a : Ability) : Ability.fromName a.pyName = some a := by
  cases a <;> rfl

/-- Proficiency name round-trip. -/
theorem proficiency_fromName_pyName (p : Proficiency) :
    Proficiency.fromName p.pyName = some p := by
  cases p <;> rfl

/-- CharacteristicType name round-trip. -/
theorem ctype_fromName_pyName (c : CharacteristicType) :
    CharacteristicType.fromName c.pyName = some c := by
  cases c <;> rfl

/-- Score entries deserialize back to themselves. -/
theorem scoreEntryParse_state (p : Ability × ℤ) :
    scoreEntryParse (scoreEntryState p) = some p := by
  rcases p with ⟨a, v⟩
  cases a <;> rfl

/-- Tier entries deserialize back to themselves. -/
theorem tierEntryParse_state (p : Ability × Proficiency) :
    tierEntryParse (tierEntryState p) = some p := by
  rcases p with ⟨a, pr⟩
  cases a <;> cases pr <;> rfl

/-- AbilityScores round-trips exactly through its getstate/setstate pair. -/
theorem asSetstate_asGetstate (s : AbilityScores) :
    asSetstate (asGetstate s) = some s := by
  unfold asSetstate asGetstate
  rw [mapOption_map_inverse _ _ _ scoreEntryParse_state,
    mapOption_map_inverse _ _ _ tierEntryParse_state]

/-- A CombatCharacteristic round-trips except for the two
legendary-resistance fields, which the state omits and deserialization
leaves at the dataclass default None. -/
theorem ccSetstate_ccGetstate (c : CombatCharacteristic) :
    ccSetstate (ccGetstate c) =
      some { c with num_legendary_resistances := none, legendary_resistances_lair_bonus := none } := by
  unfold ccSetstate ccGetstate
  rw [asSetstate_asGetstate, mapOption_map_inverse _ _ _ tierEntryParse_state,
    ctype_fromName_pyName]

/-- C1 counterexample: a fully populated characteristic (legendary
resistance counts 3 and 1) does not round-trip to deep equality: the
counts are dropped by __getstate__ and come back as None. -/
theorem c1_roundtrip_counterexample :
    ccSetstate (ccGetstate egCharacteristic) ≠ some egCharacteristic := by
  decide

/-- C1 amended: every serialized field round-trips losslessly, with enum
keys and values carried by stable name (name lookup inverts naming for
every member); but CombatCharacteristic serialization drops the two
legendary-resistance count fields, which deserialize to None. -/
theorem c1_roundtrip_amended :
    (∀ s : AbilityScores, asSetstate (asGetstate s) = some s) ∧
    (∀ c : CombatCharacteristic, ccSetstate (ccGetstate c) =
      some { c with num_legendary_resistances := none, legendary_resistances_lair_bonus := none }) ∧
    (∀ a : Ability, Ability.fromName a.pyName = some a) ∧
    (∀ p : Proficiency, Proficiency.fromName p.pyName = some p) ∧
    (∀ ct : CharacteristicType, CharacteristicType.fromName ct.pyName = some ct) :=
  ⟨asSetstate_asGetstate, ccSetstate_ccGetstate, ability_fromName_pyName,
    proficiency_fromName_pyName, ctype_fromName_pyName⟩

/-- C10 counterexample: a characteristic constructed with the lower-case
title "bite claw" keeps that title verbatim; it is not normalized to
title-case (the __post_init__ normalization applies to monster_name). -/
theorem c10_title_counterexample :
    (mkCombatCharacteristic "test ogre" testOgreScores 2 [] false "bite claw"
      "The test ogre bites" .ACTION none none).title ≠ pyTitleWords "bite claw" := by
  decide

/-- C10 amended: construction leaves the title untouched and normalizes
the monster name by capitalizing each space-separated word. -/
theorem c10_title_amended (monster_name : String) (ascores : AbilityScores)
    (pb : ℤ) (sts : List (Ability × Proficiency)) (hl : Bool)
    (title description : String) (ct : CharacteristicType) (nlr lrlb : Option ℤ) :
    (mkCombatCharacteristic monster_name ascores pb sts hl title description
      ct nlr lrlb).title = title ∧
    (mkCombatCharacteristic monster_name ascores pb sts hl title description
      ct nlr lrlb).monster_name = pyTitleWords monster_name :=
  ⟨rfl, rfl⟩

/-- Evaluation of the hit-point target at rating 1/2: the sub-1 branch
gives the least integer at least 30 * sqrt(1/2), which is 22. -/
theorem hitPointTarget_half : hitPointTarget (1/2) = 22 := by
  have hce : (⌈(900 : ℚ) * (1/2)⌉ : ℤ) = 450 := by norm_num
  rw [hitPointTarget, if_pos (by norm_num : (1/2 : ℚ) < 1), hce]
  decide

/-- Evaluation of the hit-point target at rating 5. -/
theorem hitPointTarget_five : hitPointTarget 5 = 90 := by
  rw [hitPointTarget, if_neg (by norm_num : ¬ ((5 : ℚ) < 1)),
    if_pos (by norm_num : (1 : ℚ) ≤ 5 ∧ (5 : ℚ) ≤ 19)]
  norm_num

/-- Evaluation of the hit-point target at rating 20. -/
theorem hitPointTarget_twenty : hitPointTarget 20 = 315 := by
  rw [hitPointTarget, if_neg (by norm_num : ¬ ((20 : ℚ) < 1)),
    if_neg (by norm_num : ¬ ((1 : ℚ) ≤ 20 ∧ (20 : ℚ) ≤ 19))]
  norm_num

/-- C8 counterexample: at rating 1/2 the code's hit-point target is 22
(ceil of 30 * sqrt(1/2) = ceil 21.21...), not the 21 the claim asserts. -/
theorem c8_hit_point_target_counterexample : hitPointTarget (1/2) ≠ 21 := by
  rw [hitPointTarget_half]
  decide

/-- C8 amended: the hit-point target follows the three-branch formula of
the source, with spot values 1/2 to 22 (not 21), 5 to 90, 20 to 315; the
middle and upper branches are exactly the ceil formulas of the claim. -/
theorem c8_hit_point_target_amended :
    hitPointTarget (1/2) = 22 ∧ hitPointTarget 5 = 90 ∧ hitPointTarget 20 = 315 ∧
    (∀ r : ℚ, 1 ≤ r → r ≤ 19 → hitPointTarget r = ⌈15 * (r + 1)⌉) ∧
    (∀ r : ℚ, 19 < r → hitPointTarget r = ⌈45 * (r - 13)⌉) := by
  refine ⟨hitPointTarget_half, hitPointTarget_five, hitPointTarget_twenty, ?_, ?_⟩
  · intro r h1 h19
    rw [hitPointTarget, if_neg (by linarith), if_pos ⟨h1, h19⟩]
  · intro r h19
    rw [hitPointTarget, if_neg (by linarith), if_neg (by rintro ⟨-, h⟩; linarith)]

/-- Witness for C8's amended branch facts at the concrete rating 7. -/
theorem c8_hit_point_target_amended_witness :
    (1 : ℚ) ≤ 7 ∧ (7 : ℚ) ≤ 19 ∧ hitPointTarget 7 = 120 := by
  refine ⟨by norm_num, by norm_num, ?_⟩
  rw [c8_hit_point_target_amended.2.2.2.1 7 (by norm_num) (by norm_num)]
  norm_num

/-- C7: every rating inside a band of the specification's table gets that
band's proficiency bonus (in particular both inclusive boundaries of every
band); every rating in [0, 1) — covering the fractional ratings 1/8, 1/4,
1/2 — gets +2; and every rating below 0 or above 30 falls off the chain,
which the source turns into a NotImplementedError. -/
theorem c7_proficiency_bonus_bands :
    (∀ lo hi : ℚ, ∀ b : ℤ, (lo, hi, b) ∈ specBandTable → ∀ r : ℚ,
      lo ≤ r → r ≤ hi → proficiencyBonusOfRating r = some b) ∧
    (∀ r : ℚ, 0 ≤ r → r < 1 → proficiencyBonusOfRating r = some 2) ∧
    (∀ r : ℚ, r < 0 → proficiencyBonusOfRating r = none) ∧
    (∀ r : ℚ, 30 < r → proficiencyBonusOfRating r = none) := by
  refine ⟨?_, ?_, ?_, ?_⟩
  · intro lo hi b hmem r h1 h2
    simp only [specBandTable, List.mem_cons, List.not_mem_nil, or_false,
      Prod.mk.injEq] at hmem
    rcases hmem with ⟨h, h', h''⟩ | ⟨h, h', h''⟩ | ⟨h, h', h''⟩ | ⟨h, h', h''⟩ |
        ⟨h, h', h''⟩ | ⟨h, h', h''⟩ | ⟨h, h', h''⟩ | ⟨h, h', h''⟩ <;>
      subst h <;> subst h' <;> subst h'' <;>
      simp only [proficiencyBonusOfRating]
    · rw [if_pos ⟨h1, h2⟩]
    · rw [if_neg (by rintro ⟨-, hr⟩; linarith), if_pos ⟨h1, h2⟩]
    · rw [if_neg (by rintro ⟨-, hr⟩; linarith), if_neg (by rintro ⟨-, hr⟩; linarith),
        if_pos ⟨h1, h2⟩]
    · rw [if_neg (by rintro ⟨-, hr⟩; linarith), if_neg (by rintro ⟨-, hr⟩; linarith),
        if_neg (by rintro ⟨-, hr⟩; linarith), if_pos ⟨h1, h2⟩]
    · rw [if_neg (by rintro ⟨-, hr⟩; linarith), if_neg (by rintro ⟨-, hr⟩; linarith),
        if_neg (by rintro ⟨-, hr⟩; linarith), if_neg (by rintro ⟨-, hr⟩; linarith),
        if_pos ⟨h1, h2⟩]
    · rw [if_neg (by rintro ⟨-, hr⟩; linarith), if_neg (by rintro ⟨-, hr⟩; linarith),
        if_neg (by rintro ⟨-, hr⟩; linarith), if_neg (by rintro ⟨-, hr⟩; linarith),
        if_neg (by rintro ⟨-, hr⟩; linarith), if_pos ⟨h1, h2⟩]
    · rw [if_neg (by rintro ⟨-, hr⟩; linarith), if_neg (by rintro ⟨-, hr⟩; linarith),
        if_neg (by rintro ⟨-, hr⟩; linarith), if_neg (by rintro ⟨-, hr⟩; linarith),
        if_neg (by rintro ⟨-, hr⟩; linarith), if_neg (by rintro ⟨-, hr⟩; linarith),
        if_pos ⟨h1, h2⟩]
    · rw [if_neg (by rintro ⟨-, hr⟩; linarith), if_neg (by rintro ⟨-, hr⟩; linarith),
        if_neg (by rintro ⟨-, hr⟩; linarith), if_neg (by rintro ⟨-, hr⟩; linarith),
        if_neg (by rintro ⟨-, hr⟩; linarith), if_neg (by rintro ⟨-, hr⟩; linarith),
        if_neg (by rintro ⟨-, hr⟩; linarith), if_pos ⟨h1, h2⟩]
  · intro r h0 h1
    simp only [proficiencyBonusOfRating]
    rw [if_pos ⟨h0, by linarith⟩]
  · intro r hneg
    simp only [proficiencyBonusOfRating]
    rw [if_neg (by rintro ⟨hl, -⟩; linarith), if_neg (by rintro ⟨hl, -⟩; linarith),
      if_neg (by rintro ⟨hl, -⟩; linarith), if_neg (by rintro ⟨hl, -⟩; linarith),
      if_neg (by rintro ⟨hl, -⟩; linarith), if_neg (by rintro ⟨hl, -⟩; linarith),
      if_neg (by rintro ⟨hl, -⟩; linarith), if_neg (by rintro ⟨hl, -⟩; linarith)]
  · intro r hbig
    simp only [proficiencyBonusOfRating]
    rw [if_neg (by rintro ⟨-, hr⟩; linarith), if_neg (by rintro ⟨-, hr⟩; linarith),
      if_neg (by rintro ⟨-, hr⟩; linarith), if_neg (by rintro ⟨-, hr⟩; linarith),
      if_neg (by rintro ⟨-, hr⟩; linarith), if_neg (by rintro ⟨-, hr⟩; linarith),
      if_neg (by rintro ⟨-, hr⟩; linarith), if_neg (by rintro ⟨-, hr⟩; linarith)]

/-- Witness for C7 at concrete inputs: the boundary checks 4 to +2, 5 to
+3, 20 to +6, 21 to +7 via the band table, the fractional rating 1/2, and
the out-of-range ratings -1 and 31. -/
theorem c7_proficiency_bonus_bands_witness :
    ((0 : ℚ), (4 : ℚ), (2 : ℤ)) ∈ specBandTable ∧
    proficiencyBonusOfRating 4 = some 2 ∧
    proficiencyBonusOfRating 5 = some 3 ∧
    proficiencyBonusOfRating 20 = some 6 ∧
    proficiencyBonusOfRating 21 = some 7 ∧
    proficiencyBonusOfRating (1/2) = some 2 ∧
    proficiencyBonusOfRating (-1) = none ∧
    proficiencyBonusOfRating 31 = none := by
  refine ⟨by simp [specBandTable], ?_, ?_, ?_, ?_, ?_, ?_, ?_⟩
  · exact c7_proficiency_bonus_bands.1 0 4 2 (by simp [specBandTable]) 4
      (by norm_num) (by norm_num)
  · exact c7_proficiency_bonus_bands.1 5 8 3 (by simp [specBandTable]) 5
      (by norm_num) (by norm_num)
  · exact c7_proficiency_bonus_bands.1 17 20 6 (by simp [specBandTable]) 20
      (by norm_num) (by norm_num)
  · exact c7_proficiency_bonus_bands.1 21 24 7 (by simp [specBandTable]) 21
      (by norm_num) (by norm_num)
  · exact c7_proficiency_bonus_bands.2.1 (1/2) (by norm_num) (by norm_num)
  · exact c7_proficiency_bonus_bands.2.2.1 (-1) (by norm_num)
  · exact c7_proficiency_bonus_bands.2.2.2 31 (by norm_num)

/-- Resolution leaves bracket-free text unchanged. -/
theorem scanAux_no_bracket (ctx : ResolveCtx) (l : List Char) (h : '[' ∉ l) :
    scanAux ctx l none = some l := by
  induction l with
  | nil => rfl
  | cons c rest ih =>
    have hc : (c == '[') = false := by
      simp only [beq_eq_false_iff_ne]
      intro hcc
      exact h (by simp [hcc])
    have hrest : '[' ∉ rest := fun hm => h (List.mem_cons_of_mem _ hm)
    simp [scanAux, hc, ih hrest]

/-- The resolver is the identity on strings with no opening bracket. -/
theorem resolveAll_no_bracket (ctx : ResolveCtx) (s : String) (h : '[' ∉ s.data) :
    resolveAll ctx s = some s := by
  rw [resolveAll, scanAux_no_bracket ctx s.data h]
  rfl

/-- C2 counterexample: the specification's example text does not resolve
with a dice portion of 8; the average of 1D6 is floor(3.5) = 3, so the
damage number is 3 + 4 = 7. -/
theorem c2_resolution_counterexample :
    resolveAll testOgreCtx "[MON] makes a [STR ATK] attack for [STR 1D6] damage" ≠
      some "Test Ogre makes a +6 attack for 8 damage" := by
  decide

/-- C2 amended: the example resolves to a +6 attack and a damage number of
7 (1D6 in average mode is floor(1 * 3.5) = 3 by the source's Die.roll, plus
the STR modifier 4 added once); the attack portion reads exactly
"Test Ogre makes a +6 attack". -/
theorem c2_resolution_amended :
    resolveAll testOgreCtx "[MON] makes a [STR ATK] attack for [STR 1D6] damage" =
      some "Test Ogre makes a +6 attack for 7 damage" ∧
    Die.roll .D6 1 .AVERAGE = some 3 ∧
    calculate_stat_operation testOgreScores "STR" "ATK" none none = .ok (some 6) := by
  refine ⟨by decide, by decide, by decide⟩

/-- C9 counterexample: on the title "Bite.." the code's presentation is
"***Bite.***" (all trailing periods stripped, then one re-appended), while
the claim's strip-a-single-period reading predicts "***Bite..***". -/
theorem c9_markdown_counterexample :
    hbV3Markdown dottedCharacteristic ≠ hbV3MarkdownClaim dottedCharacteristic ∧
    hbV3Markdown dottedCharacteristic = some "***Bite.*** Claws the target." := by
  refine ⟨by decide, by decide⟩

/-- C9 amended: title and description are whitespace-stripped and have all
trailing periods removed; keyword emphasis applies to the description only
and then directives resolve (the identity on bracket-free text); a single
trailing period is appended exactly when the resolved text does not already
end with one; the parts join as three-asterisk title, period, space,
description, period. -/
theorem c9_markdown_amended (c : CombatCharacteristic)
    (ht : '[' ∉ (stripTrailingDots (pyStrip c.title)).data)
    (hd : '[' ∉ (format_keyword_phrases (stripTrailingDots (pyStrip c.description))).data) :
    hbV3Markdown c =
      some ("***" ++ withTrailingDot (stripTrailingDots (pyStrip c.title)) ++ "*** " ++
        withTrailingDot (format_keyword_phrases (stripTrailingDots (pyStrip c.description)))) := by
  rw [hbV3Markdown, resolvedTitle, resolvedDescription,
    resolveAll_no_bracket _ _ ht, resolveAll_no_bracket _ _ hd]

/-- Witness for C9's amended statement on the double-dotted fixture. -/
theorem c9_markdown_amended_witness :
    '[' ∉ (stripTrailingDots (pyStrip dottedCharacteristic.title)).data ∧
    '[' ∉ (format_keyword_phrases
      (stripTrailingDots (pyStrip dottedCharacteristic.description))).data ∧
    hbV3Markdown dottedCharacteristic =
      some ("***" ++ withTrailingDot (stripTrailingDots (pyStrip dottedCharacteristic.title)) ++
        "*** " ++ withTrailingDot (format_keyword_phrases
          (stripTrailingDots (pyStrip dottedCharacteristic.description)))) :=
  ⟨by decide, by decide, c9_markdown_amended dottedCharacteristic (by decide) (by decide)⟩

/-- C3 counterexample: a filter combination matching zero fixture rows does
not raise; the query returns a NaN (absent) aggregate with sample size 0. -/
theorem c3_empty_query_counterexample :
    query fixtureRows [("CR", .num 99)] "Avg HP" .MEAN = .ok (.scalar none, 0) ∧
    ¬ ∃ msg, query fixtureRows [("CR", .num 99)] "Avg HP" .MEAN = .error msg := by
  have h : query fixtureRows [("CR", .num 99)] "Avg HP" .MEAN = .ok (.scalar none, 0) := by
    decide
  refine ⟨h, ?_⟩
  rintro ⟨msg, hm⟩
  rw [h] at hm
  exact Except.noConfusion hm

/-- C3 amended: whenever the filters select no rows, a mean query returns
the NaN aggregate (none) and sample size 0 without error. -/
theorem c3_empty_query_amended (rows : List MMRow)
    (filters : List (String × MDTValue)) (col : String) (f : MMRow → ℚ)
    (hf : getNumericExtractor col = .ok f)
    (hempty : applyFilters filters rows = .ok []) :
    query rows filters col .MEAN = .ok (.scalar none, 0) := by
  unfold query
  rw [hempty, hf]
  simp [applyOperation, meanAgg]

/-- Witness for C3's amended statement on the fixture table. -/
theorem c3_empty_query_amended_witness :
    getNumericExtractor "Avg HP" = .ok (fun r => (r.avgHP : ℚ)) ∧
    applyFilters [("CR", .num 99)] fixtureRows = .ok [] ∧
    query fixtureRows [("CR", .num 99)] "Avg HP" .MEAN = .ok (.scalar none, 0) :=
  ⟨rfl, by decide, c3_empty_query_amended fixtureRows [("CR", .num 99)] "Avg HP"
    (fun r => (r.avgHP : ℚ)) rfl (by decide)⟩

/-- On a duplicate-free list, filtering for one value yields that value
once if present and nothing otherwise. -/
theorem filter_eq_singleton {α : Type} [DecidableEq α] (l : List α)
    (hnd : l.Nodup) (s : α) :
    l.filter (fun z => decide (z = s)) = if s ∈ l then [s] else [] := by
  induction l with
  | nil => simp
  | cons x xs ih =>
    rw [List.nodup_cons] at hnd
    obtain ⟨hx, hnd'⟩ := hnd
    by_cases hxs : x = s
    · subst hxs
      rw [List.filter_cons, if_pos (by simp), ih hnd', if_neg hx,
        if_pos (List.mem_cons_self _ _)]
    · have hsx : ¬ s = x := fun h => hxs h.symm
      rw [List.filter_cons, if_neg (by simp [hxs]), ih hnd']
      by_cases hmem : s ∈ xs
      · rw [if_pos hmem, if_pos (List.mem_cons_of_mem _ hmem)]
      · rw [if_neg hmem, if_neg (by simp [List.mem_cons, hsx, hmem])]

/-- Exploding rows by Size and keeping the copies tagged with one wanted
size selects exactly the rows whose size set contains the wanted size,
each contributing once (given duplicate-free size sets), retagged. -/
theorem explodeSize_filter (rows : List MMRow) (s : Size)
    (hnd : ∀ r ∈ rows, r.size.Nodup) :
    (explodeSize rows).filter (fun r => decide (r.size = [s])) =
      (rows.filter (fun r => decide (s ∈ r.size))).map
        (fun r => { r with size := [s] }) := by
  induction rows with
  | nil => rfl
  | cons r rest ih =>
    have hr : r.size.Nodup := hnd r (List.mem_cons_self _ _)
    have hrest : ∀ x ∈ rest, x.size.Nodup := fun x hx =>
      hnd x (List.mem_cons_of_mem _ hx)
    have hmapfilter :
        (r.size.map (fun z => { r with size := [z] })).filter
            (fun x => decide (x.size = [s])) =
          (r.size.filter (fun z => decide (z = s))).map
            (fun z => { r with size := [z] }) := by
      rw [List.filter_map]
      congr 1
      apply List.filter_congr
      intro z hz
      simp
    have hcons : explodeSize (r :: rest) =
        (r.size.map (fun z => { r with size := [z] })) ++ explodeSize rest := rfl
    rw [hcons, List.filter_append, hmapfilter, filter_eq_singleton _ hr, ih hrest]
    by_cases hmem : s ∈ r.size
    · rw [if_pos hmem, List.filter_cons, if_pos (by simpa using hmem)]
      simp
    · rw [if_neg hmem, List.filter_cons, if_neg (by simpa using hmem)]
      simp

/-- C4: scalar-column filters are equality tests and Size / Creature Type
filters are containment tests; filtering by a size is equivalent to
exploding every row once per contained size and keeping the copies tagged
with that size - each dual-tagged row contributing exactly once per bucket
(given duplicate-free tag sets) - both for the aggregated values and for
the sample size, which counts the contributing (exploded) rows. -/
theorem c4_multivalue_query (rows : List MMRow) (s : Size) (col : String)
    (f : MMRow → ℚ) (hf : getNumericExtractor col = .ok f)
    (hfi : ∀ (r : MMRow) (sz : List Size), f { r with size := sz } = f r)
    (hnd : ∀ r ∈ rows, r.size.Nodup) (op : OperationType) :
    (∀ r : MMRow, rowMatches "Size" (.size s) r = decide (s ∈ r.size)) ∧
    (∀ (r : MMRow) (c : CreatureType),
      rowMatches "Creature Type" (.ctype c) r = decide (c ∈ r.creatureType)) ∧
    (∀ (r : MMRow) (q : ℚ), rowMatches "CR" (.num q) r = (r.cr == q)) ∧
    ((explodeSize rows).filter (fun r => decide (r.size = [s]))).map f =
      (rows.filter (fun r => decide (s ∈ r.size))).map f ∧
    ((explodeSize rows).filter (fun r => decide (r.size = [s]))).length =
      (rows.filter (fun r => decide (s ∈ r.size))).length ∧
    query rows [("Size", .size s)] col op =
      .ok (applyOperation op
          (((explodeSize rows).filter (fun r => decide (r.size = [s]))).map f),
        (((explodeSize rows).filter (fun r => decide (r.size = [s]))).map f).length) := by
  have hmap : ((explodeSize rows).filter (fun r => decide (r.size = [s]))).map f =
      (rows.filter (fun r => decide (s ∈ r.size))).map f := by
    rw [explodeSize_filter rows s hnd, List.map_map]
    apply List.map_congr_left
    intro a ha
    simpa using hfi a [s]
  have hlen : ((explodeSize rows).filter (fun r => decide (r.size = [s]))).length =
      (rows.filter (fun r => decide (s ∈ r.size))).length := by
    rw [explodeSize_filter rows s hnd, List.length_map]
  have happ : applyFilters [("Size", MDTValue.size s)] rows =
      .ok (rows.filter (fun r => decide (s ∈ r.size))) := by
    simp only [applyFilters]
    rw [if_pos (by decide : "Size" ∈ validColumns)]
    congr 1
  refine ⟨fun r => rfl, fun r c => rfl, fun r q => rfl, hmap, hlen, ?_⟩
  unfold query
  rw [happ, hf, hmap]

/-- Witness for C4 on the fixture table: filter Size = Large over four
rows of which three match (one tagged Large and Huge, counted once),
aggregate column Avg HP, operation mean; the sample size is 3 and the mean
of 30, 40, 50 is 40. -/
theorem c4_multivalue_query_witness :
    getNumericExtractor "Avg HP" = .ok (fun r => (r.avgHP : ℚ)) ∧
    (∀ (r : MMRow) (sz : List Size),
      (fun r : MMRow => (r.avgHP : ℚ)) { r with size := sz } =
        (fun r : MMRow => (r.avgHP : ℚ)) r) ∧
    (∀ r ∈ fixtureRows, r.size.Nodup) ∧
    ((∀ r : MMRow, rowMatches "Size" (.size .LARGE) r = decide (Size.LARGE ∈ r.size)) ∧
      (∀ (r : MMRow) (c : CreatureType),
        rowMatches "Creature Type" (.ctype c) r = decide (c ∈ r.creatureType)) ∧
      (∀ (r : MMRow) (q : ℚ), rowMatches "CR" (.num q) r = (r.cr == q)) ∧
      ((explodeSize fixtureRows).filter
          (fun r => decide (r.size = [Size.LARGE]))).map (fun r => (r.avgHP : ℚ)) =
        (fixtureRows.filter (fun r => decide (Size.LARGE ∈ r.size))).map
          (fun r => (r.avgHP : ℚ)) ∧
      ((explodeSize fixtureRows).filter (fun r => decide (r.size = [Size.LARGE]))).length =
        (fixtureRows.filter (fun r => decide (Size.LARGE ∈ r.size))).length ∧
      query fixtureRows [("Size", .size .LARGE)] "Avg HP" .MEAN =
        .ok (applyOperation .MEAN
            (((explodeSize fixtureRows).filter
              (fun r => decide (r.size = [Size.LARGE]))).map (fun r => (r.avgHP : ℚ))),
          (((explodeSize fixtureRows).filter
            (fun r => decide (r.size = [Size.LARGE]))).map (fun r => (r.avgHP : ℚ))).length)) ∧
    applyFilters [("Size", .size .LARGE)] fixtureRows =
      .ok [fixtureRow1, fixtureRow2, fixtureRow3] ∧
    ((explodeSize fixtureRows).filter (fun r => decide (r.size = [Size.LARGE]))).length = 3 ∧
    query fixtureRows [("Size", .size .LARGE)] "Avg HP" .MEAN =
      .ok (.scalar (some 40), 3) := by
  refine ⟨rfl, fun r sz => rfl, by decide,
    c4_multivalue_query fixtureRows .LARGE "Avg HP" (fun r => (r.avgHP : ℚ)) rfl
      (fun r sz => rfl) (by decide) .MEAN, by decide, by decide, ?_⟩
  have happ : applyFilters [("Size", MDTValue.size .LARGE)] fixtureRows =
      .ok [fixtureRow1, fixtureRow2, fixtureRow3] := by decide
  unfold query
  rw [happ]
  rw [show getNumericExtractor "Avg HP" = .ok (fun r => (r.avgHP : ℚ)) from rfl]
  simp only [applyOperation, meanAgg, List.map_cons, List.map_nil,
    fixtureRow1, fixtureRow2, fixtureRow3]
  norm_num
